import Mathlib

/-!
Shallow embedding of `src/data_collection/stackoverflow_collector.py`
(`StackOverflowCollector`), the single source file of the repository.

Conventions used throughout:
* JSON payload values are modelled by `JValue`; a parsed JSON object
  (a Python `dict[str, Any]`) is an association list `JDict` looked up in
  first-occurrence order (Python dicts have unique keys).
* Python exceptions are modelled by `PyError`; fallible code returns
  `Except PyError _`.  A `raise RunTimeError(...)` in the source refers to an
  undefined name (Python's builtin is `RuntimeError`), so evaluating it raises
  `NameError`, modelled as `PyError.nameError "RunTimeError"`.
* The observable side effects the specification talks about (HTTP attempts,
  `time.sleep` backoffs, quota log lines) are collected in an `Event` trace.
  The fixed, float-valued pre-request delay `time.sleep(self.min_request_delay_sec)`
  happens unconditionally before the retry loop and is not part of any claim;
  it is left out of the trace.
* Calls into the HTTP transport (`self.session.get` + `resp.raise_for_status`
  + `resp.json()` inside `_request`) are abstracted by a caller-supplied
  outcome: either a raised `requests.RequestException` / `ValueError`, or a
  parsed response.  Parsed top-level responses are modelled by the structure
  `ApiResponse` (the fields the collector reads: `items`, `has_more`,
  `error_name`, `error_message`, `backoff`, `quota_remaining`, `quota_max`).
-/

namespace StackOverflowCollector

/-- JSON scalar values (plus string lists, the only list-valued field the
collector reads: `tags`).  This is the universe of field values the source
manipulates. -/
inductive JValue where
  | null : JValue
  | bool : Bool → JValue
  | int : Int → JValue
  | str : String → JValue
  | strList : List String → JValue
deriving DecidableEq, Repr

/-- A parsed JSON object (`dict[str, Any]`): association list with unique keys. -/
abbrev JDict := List (String × JValue)

/-- Models `d.get(k)` returning `none` when the key is missing. -/
def dget (d : JDict) (k : String) : Option JValue :=
  (d.find? (fun p => p.1 == k)).map (fun p => p.2)

/-- Models `d.get(k, dflt)`. -/
def dgetD (d : JDict) (k : String) (dflt : JValue) : JValue :=
  (dget d k).getD dflt

/-- Models `d.get(k)` as a value: Python's `None` object when the key is missing. -/
def dgetN (d : JDict) (k : String) : JValue :=
  dgetD d k .null

/-- Python truthiness of a value (`bool(v)`). -/
def jTruthy : JValue → Bool
  | .null => false
  | .bool b => b
  | .int n => n != 0
  | .str s => s != ""
  | .strList l => !l.isEmpty

/-- Models `x or y` (returns `x` when truthy, else `y`). -/
def pyOr (a b : JValue) : JValue :=
  if jTruthy a then a else b

/-- Python exceptions raised (directly or via undefined names) by the collector. -/
inductive PyError where
  | requestException : PyError
  | valueError : PyError
  | typeError : PyError
  | keyError : String → PyError
  | nameError : String → PyError
  | attributeError : PyError
deriving DecidableEq, Repr

/-- Models `int(v)`: identity on ints, `True ↦ 1` / `False ↦ 0`, parses strings,
`TypeError` on `None` and lists. -/
def pyInt : JValue → Except PyError Int
  | .int n => .ok n
  | .bool b => .ok (if b then 1 else 0)
  | .str s =>
    match s.toInt? with
    | some n => .ok n
    | none => .error .valueError
  | .null => .error .typeError
  | .strList _ => .error .typeError

/-- Python `==` on the modelled value universe (numeric comparison identifies
`True`/`False` with `1`/`0`; `None` equals only `None`). -/
def pyEq : JValue → JValue → Bool
  | .null, .null => true
  | .str a, .str b => a == b
  | .strList a, .strList b => a == b
  | .bool a, .bool b => a == b
  | .bool a, .int n => (if a then (1 : Int) else 0) == n
  | .int n, .bool a => n == (if a then (1 : Int) else 0)
  | .int m, .int n => m == n
  | _, _ => false

/-- Observable effects of `_request`: an HTTP attempt, a `time.sleep` of a
whole number of seconds, or a quota log line. -/
inductive Event where
  | httpGet : Event
  | sleepSec (n : Nat) : Event
  | logQuota (rem mx : Int) : Event
deriving DecidableEq, Repr

/-- Models `StackOverflowCollector._dedupe_preserve_order`, with the `seen` set made
explicit as the list of values already seen. -/
def dedupe_go (seen : List Int) : List Int → List Int
  | [] => []
  | v :: vs => if v ∈ seen then dedupe_go seen vs else v :: dedupe_go (v :: seen) vs

/-- Models `StackOverflowCollector._dedupe_preserve_order(values)`. -/
def dedupe_preserve_order (values : List Int) : List Int :=
  dedupe_go [] values

/-- Models `StackOverflowCollector._chunks(values, size)`:
`for i in range(0, len(values), size): yield values[i : i + size]`.
The loop advances by `size` elements per step, so for a positive `size` it
performs at most `values.length` iterations; `fuel` bounds the iteration count
structurally and is instantiated with `values.length` in `chunks` below.
(Python raises `ValueError` on `size = 0`; the collector only ever calls this
with `MAX_IDS_PER_REQUEST = 100`.) -/
def chunksAux (size : Nat) : Nat → List Int → List (List Int)
  | 0, _ => []
  | _, [] => []
  | fuel + 1, v :: vs => ((v :: vs).take size) :: chunksAux size fuel ((v :: vs).drop size)

/-- Models `StackOverflowCollector._chunks(values, size)` for positive `size`. -/
def chunks (values : List Int) (size : Nat) : List (List Int) :=
  chunksAux size values.length values

/-- Models `StackOverflowCollector.MAX_IDS_PER_REQUEST`. -/
def MAX_IDS_PER_REQUEST : Nat := 100

/-- Models `StackOverflowCollector.MAX_RETRIES`. -/
def MAX_RETRIES : Nat := 3

/-- A parsed top-level API response, restricted to the fields the collector
reads (the source types responses as `dict[str, Any]`; absent fields behave as
the `.get` defaults shown here). -/
structure ApiResponse where
  items : List JDict := []
  has_more : Bool := false
  error_name : Option String := none
  error_message : String := ""
  backoff : Option Nat := none
  quota_remaining : Option Int := none
  quota_max : Option Int := none

/-- The empty dict `{}` viewed as a response (every `.get` yields its default). -/
def emptyResponse : ApiResponse := {}

/-- The instance attributes assigned by `StackOverflowCollector.__init__`.
`print_quota` is an `Option` because Python object attributes may be unset:
reading an attribute that was never assigned raises `AttributeError`. -/
structure CollectorState where
  base_url : String
  site : String
  api_key : Option String
  min_request_delay_sec : ℚ
  print_quota : Option Bool

/-- Models `StackOverflowCollector.__init__`: stores `base_url` (with trailing `/`
stripped), `site`, `api_key` and `min_request_delay_sec` (assigned twice, the
parameter value winning).  The `print_quota` parameter is accepted but never
assigned to `self`, so the attribute stays unset (`none`). -/
def init_collector (api_key : Option String) (site : String) (base_url : String)
    (min_request_delay_sec : ℚ) (print_quota : Bool) : CollectorState :=
  { base_url := base_url.dropRightWhile (fun c => c == '/')
    site := site
    api_key := api_key
    min_request_delay_sec := min_request_delay_sec
    print_quota := none }

/-- Models `StackOverflowCollector._raise_if_api_error(data, attempt)`: no-op when
`error_name` is absent; on `throttle_violation` sleeps `10 * attempt` seconds
and raises `requests.RequestException`; on any other error name evaluates the
undefined name `RunTimeError`, raising `NameError`.  Returns the raised
error (if any) together with the sleeps performed. -/
def raise_if_api_error (data : ApiResponse) (attempt : Nat) :
    Except PyError Unit × List Event :=
  match data.error_name with
  | none => (.ok (), [])
  | some nm =>
    if nm = "throttle_violation" then
      (.error .requestException, [.sleepSec (10 * attempt)])
    else
      (.error (.nameError "RunTimeError"), [])

/-- Models `StackOverflowCollector._sleep_if_backoff_requested(data)`: sleeps
`int(backoff)` seconds when the `backoff` field is present and truthy. -/
def sleep_if_backoff_requested (data : ApiResponse) : List Event :=
  match data.backoff with
  | some b => if b ≠ 0 then [.sleepSec b] else []
  | none => []

/-- Models `StackOverflowCollector._print_quota_if_present(data)`: logs
`quota_remaining`/`quota_max` when both are present (`is not None`). -/
def print_quota_if_present (data : ApiResponse) : List Event :=
  match data.quota_remaining, data.quota_max with
  | some r, some m => [.logQuota r m]
  | _, _ => []

/-- Outcome of one interaction with the HTTP transport inside the `try:` block
of `_request`: `session.get`/`raise_for_status` raising
`requests.RequestException`, `resp.json()` raising `ValueError`, or a parsed
response. -/
inductive TransportOutcome where
  | raiseRequestExc : TransportOutcome
  | raiseValueErr : TransportOutcome
  | response (data : ApiResponse) : TransportOutcome

/-- How the `try:` block of `_request` terminates: a `return data`, an
exception caught by `except (requests.RequestException, ValueError)`, or an
uncaught exception. -/
inductive TryOut where
  | ret (data : ApiResponse) : TryOut
  | caught (e : PyError) : TryOut
  | uncaught (e : PyError) : TryOut

/-- The `try:` block of `_request` at a given attempt number, given the
transport outcome of this attempt.  On a parsed response it runs
`_raise_if_api_error`, `_sleep_if_backoff_requested`, and then reads
`self.print_quota` — an attribute `__init__` never assigns, so the read
raises `AttributeError` (uncaught by the `except` clause). -/
def request_try_body (s : CollectorState) (t : TransportOutcome) (attempt : Nat) :
    TryOut × List Event :=
  match t with
  | .raiseRequestExc => (.caught .requestException, [.httpGet])
  | .raiseValueErr => (.caught .valueError, [.httpGet])
  | .response data =>
    match raise_if_api_error data attempt with
    | (.error e, ev) =>
      (if e = .requestException ∨ e = .valueError then .caught e else .uncaught e,
       .httpGet :: ev)
    | (.ok _, ev) =>
      let ev2 := .httpGet :: (ev ++ sleep_if_backoff_requested data)
      match s.print_quota with
      | none => (.uncaught .attributeError, ev2)
      | some pq =>
        if pq then (.ret data, ev2 ++ print_quota_if_present data)
        else (.ret data, ev2)

/-- One iteration of the `for attempt in range(1, MAX_RETRIES + 1)` loop body
of `_request`.  After the `except` handler of a non-final attempt finishes
(`time.sleep(2 * attempt)`), control falls through to the `return {}`
statement, which sits inside the loop body: the function returns the empty
dict instead of starting the next attempt. -/
def request_loop_iter (s : CollectorState) (t : TransportOutcome) (attempt : Nat) :
    Except PyError ApiResponse × List Event :=
  match request_try_body s t attempt with
  | (.ret d, ev) => (.ok d, ev)
  | (.uncaught e, ev) => (.error e, ev)
  | (.caught e, ev) =>
    if attempt = MAX_RETRIES then (.error e, ev)
    else (.ok emptyResponse, ev ++ [.sleepSec (2 * attempt)])

/-- Models `StackOverflowCollector._request(endpoint, params)`, with the transport
abstracted by the per-attempt outcomes.  Every branch of the loop body
returns or raises (see `request_loop_iter`), so the loop never reaches
attempt 2: the call is exactly the first iteration. -/
def request (s : CollectorState) (outcomes : Nat → TransportOutcome) :
    Except PyError ApiResponse × List Event :=
  request_loop_iter s (outcomes 1) 1

/-- The inner loop of `_search_question_ids` over `data.get("items", [])`:
appends `int(item.get("question_id"))` for every item whose `question_id`
is not `None`. -/
def collect_page_ids : List JDict → Except PyError (List Int)
  | [] => .ok []
  | item :: rest =>
    match dgetN item "question_id" with
    | .null => collect_page_ids rest
    | v =>
      match pyInt v with
      | .error e => .error e
      | .ok n =>
        match collect_page_ids rest with
        | .error e => .error e
        | .ok ns => .ok (n :: ns)

/-- The `for page in range(1, max_pages + 1)` loop of `_search_question_ids`,
with `_request` abstracted as the map from page number to parsed response.
`remaining` is the number of iterations left (initially `max_pages`); the
loop breaks when a page reports `has_more` false. -/
def search_pages_from (pages : Nat → ApiResponse) : Nat → Nat → Except PyError (List Int)
  | 0, _ => .ok []
  | remaining + 1, page =>
    let data := pages page
    match collect_page_ids data.items with
    | .error e => .error e
    | .ok ids =>
      if data.has_more then
        match search_pages_from pages remaining (page + 1) with
        | .error e => .error e
        | .ok rest => .ok (ids ++ rest)
      else .ok ids

/-- Models `StackOverflowCollector._search_question_ids(...)`: collects the ids of up
to `max_pages` pages (stopping early on `has_more` false) and deduplicates
them preserving first-occurrence order. -/
def search_question_ids (pages : Nat → ApiResponse) (max_pages : Nat) :
    Except PyError (List Int) :=
  match search_pages_from pages max_pages 1 with
  | .error e => .error e
  | .ok ids => .ok (dedupe_preserve_order ids)

/-- Models `answers_by_qid.setdefault(qid, []).append(ans)` on an insertion-ordered
dict modelled as an association list with unique keys. -/
def setdefault_append (m : List (Int × List JDict)) (qid : Int) (a : JDict) :
    List (Int × List JDict) :=
  if m.any (fun p => p.1 == qid) then
    m.map (fun p => if p.1 == qid then (p.1, p.2 ++ [a]) else p)
  else
    m ++ [(qid, [a])]

/-- The accumulation loop of `_fetch_answers_for_questions` over
`data.get("items", [])`: `qid = int(ans["question_id"])` (a `KeyError` when
the key is absent) followed by `setdefault(qid, []).append(ans)`. -/
def accum_answers : List JDict → List (Int × List JDict) →
    Except PyError (List (Int × List JDict))
  | [], acc => .ok acc
  | ans :: rest, acc =>
    match dget ans "question_id" with
    | none => .error (.keyError "question_id")
    | some v =>
      match pyInt v with
      | .error e => .error e
      | .ok qid => accum_answers rest (setdefault_append acc qid ans)

/-- Models `StackOverflowCollector._fetch_answers_for_questions(question_ids)`, with
`_request` abstracted as `server`, the map from the id batch encoded in the
formatted endpoint to the parsed response.  In the source the
`data = self._request(endpoint, params)` call is indented at method level,
OUTSIDE the `for batch in self._chunks(...)` loop (which only assigns
`endpoint` and `params`): a single request is issued, for the batch of the
final loop iteration.  With no batches at all, `endpoint` is unbound and the
call raises `NameError` (`UnboundLocalError`). -/
def fetch_answers_for_questions (server : List Int → ApiResponse)
    (question_ids : List Int) : Except PyError (List (Int × List JDict)) :=
  match (chunks question_ids MAX_IDS_PER_REQUEST).getLast? with
  | none => .error (.nameError "endpoint")
  | some lastBatch => accum_answers (server lastBatch).items []

/-- The predicate of the first scan of `_find_accepted_answer`:
`ans.get("is_accepted") is True` (identity with the `True` singleton). -/
def is_accepted_is_true (a : JDict) : Bool :=
  match dgetN a "is_accepted" with
  | .bool true => true
  | _ => false

/-- Models `StackOverflowCollector._find_accepted_answer(question, answers)`:
returns `None` when `question.get("accepted_answer_id")` is falsy; otherwise
the first answer with `is_accepted is True`, else the first answer with
`answer_id == accepted_id`, else `None`. -/
def find_accepted_answer (question : JDict) (answers : List JDict) : Option JDict :=
  let accepted_id := dgetN question "accepted_answer_id"
  if !jTruthy accepted_id then none
  else
    match answers.find? is_accepted_is_true with
    | some a => some a
    | none => answers.find? (fun a => pyEq (dgetN a "answer_id") accepted_id)

/-- Models `StackOverflowCollector._ts_to_iso(unix_ts)`: returns `None` for `None`;
otherwise evaluates `int(unix_ts)` and then
`datetime.fromtimestamp(..., tz=timezone.utc)` — but only `datetime` is
imported from the `datetime` module, so the name `timezone` is undefined and
the call raises `NameError`. -/
def ts_to_iso (unix_ts : JValue) : Except PyError JValue :=
  match unix_ts with
  | .null => .ok .null
  | v =>
    match pyInt v with
    | .ok _ => .error (.nameError "timezone")
    | .error e => .error e

/-- Models `StackOverflowCollector._html_to_text(html)` with the external
HTML-to-text extraction (`BeautifulSoup(...).get_text(" ", strip=True)`)
abstracted as `f`: returns `""` for falsy input, applies `f` to strings, and
fails on truthy non-string input (which `BeautifulSoup` rejects). -/
def html_to_text (f : String → String) (html : JValue) : Except PyError JValue :=
  if jTruthy html = false then .ok (.str "")
  else
    match html with
    | .str s => .ok (.str (f s))
    | _ => .error .typeError

/-- Models `StackOverflowCollector._to_qa_pair(question, answer)`: the flat record,
with entries evaluated in source order.  Note the source's key spellings
(`questions_score`, `questions_tag`), its duplicated `"question_url"` key (a
Python dict literal keeps one entry, at the first position, with the last
value `question.get("linl", "") or ""`), and its reads of the misspelled keys
`creation_data` and `linl` on the question. -/
def to_qa_pair (f : String → String) (question answer : JDict) :
    Except PyError JDict :=
  let q_body_html := pyOr (dgetD question "body" (.str "")) (.str "")
  let a_body_html := pyOr (dgetD answer "body" (.str "")) (.str "")
  match pyInt (pyOr (dgetD question "score" (.int 0)) (.int 0)) with
  | .error e => .error e
  | .ok q_score =>
  match ts_to_iso (dgetN question "creation_data") with
  | .error e => .error e
  | .ok q_created =>
  match pyInt (pyOr (dgetD answer "score" (.int 0)) (.int 0)) with
  | .error e => .error e
  | .ok a_score =>
  match ts_to_iso (dgetN answer "creation_date") with
  | .error e => .error e
  | .ok a_created =>
  match html_to_text f q_body_html with
  | .error e => .error e
  | .ok q_text =>
  match html_to_text f a_body_html with
  | .error e => .error e
  | .ok a_text =>
    .ok [("question_id", dgetN question "question_id"),
         ("question_title", pyOr (dgetD question "title" (.str "")) (.str "")),
         ("questions_score", .int q_score),
         ("questions_tag", pyOr (dgetD question "tags" (.strList [])) (.strList [])),
         ("question_url", pyOr (dgetD question "linl" (.str "")) (.str "")),
         ("question_created_utc", q_created),
         ("view_count", dgetN question "view_count"),
         ("accepted_answer_id", dgetN question "accepted_answer_id"),
         ("answer_id", dgetN answer "answer_id"),
         ("answer_score", .int a_score),
         ("answer_created_utc", a_created),
         ("question_body_html", q_body_html),
         ("answer_body_html", a_body_html),
         ("question_body_text", q_text),
         ("answer_body_text", a_text)]

/-- Models `answers_by_qid.get(qid, [])` in `get_questions`. -/
def answers_for (answers_by_qid : List (Int × List JDict)) (qid : Int) :
    List JDict :=
  (((answers_by_qid.find? (fun p => p.1 == qid)).map (fun p => p.2)).getD [])

/-- The pairing loop of `StackOverflowCollector.get_questions`: for each
`(qid, question)` of `questions_by_id` (insertion order), select the accepted
answer from `answers_by_qid.get(qid, [])`; when there is none, `continue`
(no record); otherwise append `_to_qa_pair(question, accepted)`. -/
def qa_pairs_loop (f : String → String) (answers_by_qid : List (Int × List JDict)) :
    List (Int × JDict) → Except PyError (List JDict)
  | [] => .ok []
  | (qid, q) :: rest =>
    match find_accepted_answer q (answers_for answers_by_qid qid) with
    | none => qa_pairs_loop f answers_by_qid rest
    | some acc =>
      match to_qa_pair f q acc with
      | .error e => .error e
      | .ok pair =>
        match qa_pairs_loop f answers_by_qid rest with
        | .error e => .error e
        | .ok more => .ok (pair :: more)

/-! ## General lemmas about the helpers -/

/-- Index of the first occurrence of `a` in a list (length of the list when
`a` does not occur); used to state first-occurrence order preservation. -/
def firstIdx (a : Int) : List Int → Nat
  | [] => 0
  | v :: vs => if v = a then 0 else firstIdx a vs + 1

theorem mem_dedupe_go (seen vs : List Int) (a : Int) :
    a ∈ dedupe_go seen vs ↔ a ∈ vs ∧ a ∉ seen := by
  induction vs generalizing seen with
  | nil => simp [dedupe_go]
  | cons v vs ih =>
    by_cases hv : v ∈ seen
    · simp only [dedupe_go, if_pos hv, ih, List.mem_cons]
      constructor
      · rintro ⟨h1, h2⟩
        exact ⟨Or.inr h1, h2⟩
      · rintro ⟨h1 | h1, h2⟩
        · exact absurd (h1 ▸ hv) h2
        · exact ⟨h1, h2⟩
    · simp only [dedupe_go, if_neg hv, List.mem_cons, ih]
      by_cases hav : a = v
      · subst hav
        simp [hv]
      · simp only [hav, false_or]


theorem nodup_dedupe_go (seen vs : List Int) : (dedupe_go seen vs).Nodup := by
  induction vs generalizing seen with
  | nil => simp [dedupe_go]
  | cons v vs ih =>
    by_cases hv : v ∈ seen
    · simpa [dedupe_go, if_pos hv] using ih seen
    · simp only [dedupe_go, if_neg hv, List.nodup_cons]
      refine ⟨fun hmem => ?_, ih (v :: seen)⟩
      exact ((mem_dedupe_go _ _ _).1 hmem).2 (List.mem_cons_self v seen)

theorem firstIdx_dedupe_go (seen vs : List Int) (a b : Int)
    (ha : a ∈ dedupe_go seen vs) (hb : b ∈ dedupe_go seen vs) :
    (firstIdx a (dedupe_go seen vs) ≤ firstIdx b (dedupe_go seen vs) ↔
      firstIdx a vs ≤ firstIdx b vs) := by
  induction vs generalizing seen with
  | nil => simp [dedupe_go] at ha
  | cons v vs ih =>
    by_cases hv : v ∈ seen
    · have hd : dedupe_go seen (v :: vs) = dedupe_go seen vs := by
        simp [dedupe_go, if_pos hv]
      rw [hd] at ha hb ⊢
      have haa := (mem_dedupe_go _ _ _).1 ha
      have hbb := (mem_dedupe_go _ _ _).1 hb
      have hav : v ≠ a := fun h => haa.2 (h ▸ hv)
      have hbv : v ≠ b := fun h => hbb.2 (h ▸ hv)
      rw [ih seen ha hb]
      simp only [firstIdx, if_neg hav, if_neg hbv]
      omega
    · have hd : dedupe_go seen (v :: vs) = v :: dedupe_go (v :: seen) vs := by
        simp [dedupe_go, if_neg hv]
      rw [hd] at ha hb ⊢
      by_cases hva : v = a
      · simp [firstIdx, if_pos hva]
      · by_cases hvb : v = b
        · have ha2 : a ∈ dedupe_go (v :: seen) vs := by
            rcases List.mem_cons.1 ha with h | h
            · exact absurd h.symm hva
            · exact h
          simp [firstIdx, if_neg hva, if_pos hvb]
        · have ha2 : a ∈ dedupe_go (v :: seen) vs := by
            rcases List.mem_cons.1 ha with h | h
            · exact absurd h.symm hva
            · exact h
          have hb2 : b ∈ dedupe_go (v :: seen) vs := by
            rcases List.mem_cons.1 hb with h | h
            · exact absurd h.symm hvb
            · exact h
          have hiv := ih (v :: seen) ha2 hb2
          simp only [firstIdx, if_neg hva, if_neg hvb]
          omega

theorem chunksAux_join (size : Nat) (hsize : 0 < size) :
    ∀ fuel vs, vs.length ≤ fuel → (chunksAux size fuel vs).flatten = vs := by
  intro fuel
  induction fuel with
  | zero =>
    intro vs hlen
    rw [List.length_eq_zero.1 (Nat.le_zero.1 hlen)]
    simp [chunksAux]
  | succ fuel ih =>
    intro vs hlen
    match vs with
    | [] => simp [chunksAux]
    | v :: tl =>
      have hdrop : ((v :: tl).drop size).length ≤ fuel := by
        rw [List.length_drop]
        simp only [List.length_cons] at hlen ⊢
        omega
      simp only [chunksAux, List.flatten_cons, ih _ hdrop]
      exact List.take_append_drop size (v :: tl)

theorem chunksAux_mem_length_le (size : Nat) :
    ∀ fuel vs c, c ∈ chunksAux size fuel vs → c.length ≤ size := by
  intro fuel
  induction fuel with
  | zero =>
    intro vs c hc
    simp [chunksAux] at hc
  | succ fuel ih =>
    intro vs c hc
    match vs with
    | [] => simp [chunksAux] at hc
    | v :: tl =>
      simp only [chunksAux, List.mem_cons] at hc
      rcases hc with h | h
      · subst h
        rw [List.length_take]
        exact Nat.min_le_left _ _
      · exact ih _ _ h


/-! ## Claims

Each claim of the specification is settled by one theorem below.  The
concrete inputs (`cState`, `c1Server`, ...) used by counterexamples and
witnesses are defined next to the theorems that use them. -/

/-- A collector built with default-like arguments and quota reporting
disabled, shared by several concrete evaluations. -/
def cState : CollectorState :=
  init_collector none "stackoverflow" "https://api.stackexchange.com/2.3" (1 / 5) false

/-- Server model for claim C1: answers every queried batch with exactly one
answer per question id in the batch. -/
def c1Server (batch : List Int) : ApiResponse :=
  { items := batch.map (fun i => [("question_id", JValue.int i)]) }

/-- Input for claim C1: 101 question ids, which chunk into a batch of 100
and a batch of 1. -/
def c1Qids : List Int := (List.range 101).map Int.ofNat

/-- Claim C1 (refuted; the code is the slip): `_fetch_answers_for_questions`
is claimed to issue one answers request per chunk of at most 100 IDs and to
merge the answers of every chunk.  In the source the
`data = self._request(endpoint, params)` call sits after the chunk loop, so
on 101 ids — two chunks — only the final chunk `[100]` is requested: the
resulting mapping holds the single answer of question 100 and no entry for
the 100 questions of the first chunk, even though the server returns one
answer per queried question. -/
theorem C1_only_final_chunk_fetched :
    chunks c1Qids MAX_IDS_PER_REQUEST = [(List.range 100).map Int.ofNat, [100]] ∧
    (c1Server ((List.range 100).map Int.ofNat)).items.length = 100 ∧
    fetch_answers_for_questions c1Server c1Qids =
      .ok [(100, [[("question_id", JValue.int 100)]])] :=
  ⟨rfl, rfl, rfl⟩

/-- Claim C2 (refuted; the code is the slip): a first attempt failing with a
transport error is claimed to be retried after a 2-second backoff, with the
last failure raised after 3 failed attempts and no success value ever
returned after a failure.  The `return {}` statement sits inside the retry
loop, so the call sleeps `2 * 1` seconds and then returns the empty dict —
a success value — without a second attempt. -/
theorem C2_returns_empty_dict_after_first_failure :
    request cState (fun _ => .raiseRequestExc) =
      (.ok emptyResponse, [.httpGet, .sleepSec 2]) :=
  rfl

/-- A successful response (no API error, no backoff) carrying quota fields,
for claim C3. -/
def c3SuccessResp : ApiResponse := { quota_remaining := some 100, quota_max := some 300 }

/-- Claim C3 (refuted; the code is the slip): the quota-reporting toggle is
claimed to be retained by the collector, with a successful request completing
without error when reporting is disabled.  `__init__` never assigns
`self.print_quota`, so whatever toggle value is supplied, the attribute is
unset and every successful request raises `AttributeError` at
`if self.print_quota:` instead of returning the parsed response. -/
theorem C3_toggle_not_retained_attribute_error :
    ∀ b : Bool,
      (init_collector none "stackoverflow" "https://api.stackexchange.com/2.3"
        (1 / 5) b).print_quota = none ∧
      request (init_collector none "stackoverflow" "https://api.stackexchange.com/2.3"
          (1 / 5) b) (fun _ => .response c3SuccessResp) =
        (.error .attributeError, [.httpGet]) :=
  fun _ => ⟨rfl, rfl⟩

/-- A throttle-violation response, for claim C4. -/
def throttleResp : ApiResponse := { error_name := some "throttle_violation" }

/-- Claim C4 (refuted; the code is the slip): a throttle violation at attempt
n is claimed to sleep `10 * n` seconds and then be retried like any transient
failure up to the attempt cap, raising past the cap.  The code does sleep
`10 * 1` seconds and fails attempt 1 as a caught `RequestException`, but the
`return {}` inside the retry loop then returns the empty dict after the
`2 * 1`-second backoff: no retry ever happens and nothing is raised. -/
theorem C4_throttle_sleeps_but_never_retries :
    request cState (fun _ => .response throttleResp) =
      (.ok emptyResponse, [.httpGet, .sleepSec 10, .sleepSec 2]) :=
  rfl

/-- Claim C5 (confirmed): a response carrying an `error_name` other than
`throttle_violation` makes `_request` raise immediately and non-retryably:
the result is an error after exactly one HTTP attempt with no backoff sleep,
independent of the outcomes of any later attempt.  (The raise is written
`raise RunTimeError(...)`, an undefined name, so the propagated exception is
a `NameError`; it escapes the `except` clause all the same.) -/
theorem C5_non_throttle_error_raises_immediately
    (s : CollectorState) (outcomes : Nat → TransportOutcome)
    (d : ApiResponse) (nm : String)
    (h1 : outcomes 1 = .response d) (h2 : d.error_name = some nm)
    (h3 : nm ≠ "throttle_violation") :
    request s outcomes = (.error (.nameError "RunTimeError"), [.httpGet]) := by
  simp only [request, request_loop_iter, request_try_body, raise_if_api_error, h1, h2,
    if_neg h3]
  rfl

/-- Response with a non-throttle API error, for the claim C5 witness. -/
def c5Resp : ApiResponse := { error_name := some "some_other_error" }

/-- Witness for claim C5 at a concrete non-throttle API error. -/
theorem C5_non_throttle_witness :
    request cState (fun _ => .response c5Resp) =
      (.error (.nameError "RunTimeError"), [.httpGet]) :=
  C5_non_throttle_error_raises_immediately cState (fun _ => .response c5Resp) c5Resp
    "some_other_error" rfl rfl (by decide)

/-- A question that declares no accepted answer, for the claim C6
counterexample. -/
def c6q : JDict := []

/-- An answer flagged `is_accepted: True`, for the claim C6 counterexample. -/
def c6flagged : JDict := [("answer_id", JValue.int 7), ("is_accepted", JValue.bool true)]

/-- Claim C6 counterexample: the answer list `[c6flagged]` contains an item
whose `is_accepted` flag is `True`, yet `_find_accepted_answer` does not
return it — the question has no (truthy) `accepted_answer_id`, and the guard
`if not accepted_id: return None` fires before the flagged scan. -/
theorem C6_counterexample_flagged_not_returned :
    is_accepted_is_true c6flagged = true ∧
    find_accepted_answer c6q [c6flagged] = none ∧
    find_accepted_answer c6q [c6flagged] ≠ some c6flagged := by
  refine ⟨rfl, rfl, by decide⟩

/-- Claim C6 as amended: for every question whose `accepted_answer_id` is
present and truthy, and every answer list containing an item whose
`is_accepted` flag is `True`, `_find_accepted_answer` returns a flagged item
of the list (the first one), regardless of its position. -/
theorem C6_flagged_returned_when_id_declared
    (q : JDict) (answers : List JDict)
    (hq : jTruthy (dgetN q "accepted_answer_id") = true)
    (hex : ∃ a ∈ answers, is_accepted_is_true a = true) :
    ∃ b ∈ answers, is_accepted_is_true b = true ∧
      find_accepted_answer q answers = some b := by
  have hsome : (answers.find? is_accepted_is_true).isSome := by
    rw [List.find?_isSome]
    obtain ⟨a, ha, hacc⟩ := hex
    exact ⟨a, ha, hacc⟩
  obtain ⟨b, hb⟩ := Option.isSome_iff_exists.1 hsome
  refine ⟨b, List.mem_of_find?_eq_some hb, List.find?_some hb, ?_⟩
  simp [find_accepted_answer, hq, hb]

/-- Question declaring accepted answer 42, for the claim C6 witness. -/
def c6wq : JDict := [("accepted_answer_id", JValue.int 42)]

/-- An unflagged answer preceding the flagged one, for the claim C6 witness. -/
def c6wOther : JDict := [("answer_id", JValue.int 41), ("is_accepted", JValue.bool false)]

/-- The flagged accepted answer, in second position, for the claim C6 witness. -/
def c6wFlagged : JDict := [("answer_id", JValue.int 42), ("is_accepted", JValue.bool true)]

/-- Witness for the amended claim C6: the flagged answer is returned although
it is not in first position. -/
theorem C6_flagged_returned_witness :
    ∃ b ∈ [c6wOther, c6wFlagged], is_accepted_is_true b = true ∧
      find_accepted_answer c6wq [c6wOther, c6wFlagged] = some b :=
  C6_flagged_returned_when_id_declared c6wq [c6wOther, c6wFlagged] (by decide)
    ⟨c6wFlagged, List.mem_cons_of_mem c6wOther (List.mem_cons_self c6wFlagged []),
      by decide⟩

/-- Key list of a produced record (`none` when the call raised). -/
def okKeys : Except PyError JDict → Option (List String)
  | .ok r => some (r.map Prod.fst)
  | .error _ => none

/-- Field lookup on a produced record (`none` when the call raised). -/
def okGet : Except PyError JDict → String → Option JValue
  | .ok r, k => dget r k
  | .error _, _ => none

/-- A fully populated question object (with `link` and `creation_date` as the
API returns them), for claim C7. -/
def c7q : JDict :=
  [("question_id", JValue.int 5), ("title", JValue.str "T"), ("score", JValue.int 12),
   ("tags", JValue.strList ["python"]), ("link", JValue.str "https://x"),
   ("creation_date", JValue.int 1700000000), ("view_count", JValue.int 9),
   ("accepted_answer_id", JValue.int 42), ("body", JValue.str "<p>q</p>")]

/-- An answer object without a `creation_date`, for claim C7 (the only shape
for which `_to_qa_pair` completes). -/
def c7a : JDict :=
  [("answer_id", JValue.int 42), ("score", JValue.int 3), ("body", JValue.str "<p>a</p>")]

/-- The same answer with its `creation_date`, as the API actually returns
answers, for claim C7. -/
def c7aTs : JDict := c7a ++ [("creation_date", JValue.int 1700000100)]

/-- Claim C7 (refuted; the code is the slip): the flat record is claimed to
have exactly the fields `question_id, question_title, question_score,
question_tags, question_url, question_created_utc, view_count,
accepted_answer_id, answer_id, answer_score, answer_created_utc,
question_body_html, question_body_text, answer_body_html, answer_body_text`,
with the `*_created_utc` fields derived from the creation timestamps.  The
record actually produced spells two keys `questions_score` and
`questions_tag`; its `question_created_utc` is read from the misspelled key
`creation_data`, hence `None` even though the question carries
`creation_date`; its `question_url` is read from the misspelled key `linl`,
hence `""` even though the question carries `link`; and for an answer that
does carry `creation_date`, `_ts_to_iso` evaluates the unimported name
`timezone` and the whole conversion raises `NameError` instead of producing
an ISO-8601 string. -/
theorem C7_flat_record_fields_diverge :
    okKeys (to_qa_pair (fun s => s) c7q c7a) =
      some ["question_id", "question_title", "questions_score", "questions_tag",
            "question_url", "question_created_utc", "view_count", "accepted_answer_id",
            "answer_id", "answer_score", "answer_created_utc", "question_body_html",
            "answer_body_html", "question_body_text", "answer_body_text"] ∧
    "question_score" ∉ (okKeys (to_qa_pair (fun s => s) c7q c7a)).getD [] ∧
    "question_tags" ∉ (okKeys (to_qa_pair (fun s => s) c7q c7a)).getD [] ∧
    dget c7q "creation_date" = some (JValue.int 1700000000) ∧
    okGet (to_qa_pair (fun s => s) c7q c7a) "question_created_utc" = some JValue.null ∧
    dget c7q "link" = some (JValue.str "https://x") ∧
    okGet (to_qa_pair (fun s => s) c7q c7a) "question_url" = some (JValue.str "") ∧
    to_qa_pair (fun s => s) c7q c7aTs = .error (.nameError "timezone") :=
  ⟨rfl, by decide, by decide, rfl, rfl, rfl, rfl, rfl⟩

/-- Claim C8 (confirmed): for every sequence of search-page responses, the ID
sequence returned by `_search_question_ids` has no duplicates and preserves
the first-occurrence order of the raw IDs collected across all pages
(`raw`): membership is unchanged, and two returned IDs are ordered by their
first occurrences in the raw page-order sequence. -/
theorem C8_search_ids_nodup_first_occurrence_order
    (pages : Nat → ApiResponse) (max_pages : Nat) (out : List Int)
    (h : search_question_ids pages max_pages = .ok out) :
    out.Nodup ∧
    ∃ raw, search_pages_from pages max_pages 1 = .ok raw ∧
      (∀ a, a ∈ out ↔ a ∈ raw) ∧
      (∀ a b, a ∈ out → b ∈ out →
        (firstIdx a out ≤ firstIdx b out ↔ firstIdx a raw ≤ firstIdx b raw)) := by
  unfold search_question_ids at h
  cases hr : search_pages_from pages max_pages 1 with
  | error e => rw [hr] at h; cases h
  | ok raw =>
    rw [hr] at h
    cases h
    refine ⟨nodup_dedupe_go [] raw, raw, rfl, ?_, ?_⟩
    · intro a
      rw [dedupe_preserve_order, mem_dedupe_go]
      simp
    · intro a b ha hb
      exact firstIdx_dedupe_go [] raw a b ha hb

/-- Search pages for the claim C8 witness: page 1 yields ids 5, 5, 3 and has
more; page 2 yields 5, 8 and is last. -/
def c8Pages : Nat → ApiResponse
  | 1 => { items := [[("question_id", JValue.int 5)], [("question_id", JValue.int 5)],
                     [("question_id", JValue.int 3)]], has_more := true }
  | 2 => { items := [[("question_id", JValue.int 5)], [("question_id", JValue.int 8)]] }
  | _ => {}

/-- Witness for claim C8: ids [5, 5, 3, 5, 8] across two pages are returned
as [5, 3, 8]. -/
theorem C8_search_ids_witness :
    ([5, 3, 8] : List Int).Nodup ∧
    ∃ raw, search_pages_from c8Pages 5 1 = .ok raw ∧
      (∀ a, a ∈ ([5, 3, 8] : List Int) ↔ a ∈ raw) ∧
      (∀ a b, a ∈ ([5, 3, 8] : List Int) → b ∈ ([5, 3, 8] : List Int) →
        (firstIdx a [5, 3, 8] ≤ firstIdx b [5, 3, 8] ↔
          firstIdx a raw ≤ firstIdx b raw)) :=
  C8_search_ids_nodup_first_occurrence_order c8Pages 5 [5, 3, 8] (by rfl)

/-- Claim C9 (confirmed): `_chunks` at the configured maximum 100 produces
chunks of length at most 100 whose in-order concatenation equals the input
list. -/
theorem C9_chunks_bounded_and_cover (values : List Int) :
    (∀ c ∈ chunks values MAX_IDS_PER_REQUEST, c.length ≤ 100) ∧
    (chunks values MAX_IDS_PER_REQUEST).flatten = values := by
  constructor
  · intro c hc
    exact chunksAux_mem_length_le MAX_IDS_PER_REQUEST values.length values c hc
  · exact chunksAux_join MAX_IDS_PER_REQUEST (by decide) values.length values le_rfl

/-- Witness for claim C9 on a concrete list. -/
theorem C9_chunks_witness :
    (([1, 2, 3] : List Int).length ≤ 100) ∧
    (chunks [1, 2, 3] MAX_IDS_PER_REQUEST).flatten = [1, 2, 3] :=
  ⟨(C9_chunks_bounded_and_cover [1, 2, 3]).1 [1, 2, 3] (by decide),
   (C9_chunks_bounded_and_cover [1, 2, 3]).2⟩

/-- Claim C10 (confirmed): `_find_accepted_answer` returns `None` when the
question has no `accepted_answer_id` key, and when no candidate answer
matches (none flagged `is_accepted is True` and none with
`answer_id == accepted_answer_id` — in particular a question with a declared
accepted ID but no matching fetched answer); and the pairing loop of
`get_questions` then skips the question without error and without emitting a
record. -/
theorem C10_none_when_absent_or_unmatched (q : JDict) (answers : List JDict) :
    (dget q "accepted_answer_id" = none → find_accepted_answer q answers = none) ∧
    ((∀ a ∈ answers, is_accepted_is_true a = false) →
     (∀ a ∈ answers, pyEq (dgetN a "answer_id") (dgetN q "accepted_answer_id") = false) →
     find_accepted_answer q answers = none) ∧
    (∀ f abq qid rest,
      find_accepted_answer q (answers_for abq qid) = none →
      qa_pairs_loop f abq ((qid, q) :: rest) = qa_pairs_loop f abq rest) := by
  refine ⟨?_, ?_, ?_⟩
  · intro h
    have hnull : dgetN q "accepted_answer_id" = .null := by
      unfold dgetN dgetD
      rw [h]
      rfl
    simp [find_accepted_answer, hnull, jTruthy]
  · intro h1 h2
    by_cases ht : jTruthy (dgetN q "accepted_answer_id") = true
    · have hf1 : answers.find? is_accepted_is_true = none := by
        rw [List.find?_eq_none]
        intro a ha
        simp [h1 a ha]
      have hf2 : answers.find?
          (fun a => pyEq (dgetN a "answer_id") (dgetN q "accepted_answer_id")) = none := by
        rw [List.find?_eq_none]
        intro a ha
        simp [h2 a ha]
      simp [find_accepted_answer, ht, hf1, hf2]
    · have hf : jTruthy (dgetN q "accepted_answer_id") = false := by
        revert ht
        cases jTruthy (dgetN q "accepted_answer_id") <;> simp
      simp [find_accepted_answer, hf]
  · intro f abq qid rest h
    simp [qa_pairs_loop, h]

/-- The question of the claim C10 witness: declared accepted id 99. -/
def c10q : JDict := [("accepted_answer_id", JValue.int 99)]

/-- The fetched answers of the claim C10 witness: a single answer with id
100, matching nothing. -/
def c10ans : List JDict := [[("answer_id", JValue.int 100)]]

/-- Witness for claim C10: accepted id 99 declared but only answer 100
fetched — no accepted answer is selected and the pairing loop emits nothing
for the question, without error. -/
theorem C10_none_witness :
    find_accepted_answer c10q c10ans = none ∧
    qa_pairs_loop (fun s => s) [(3, c10ans)] [(3, c10q)] =
      qa_pairs_loop (fun s => s) [(3, c10ans)] [] :=
  ⟨(C10_none_when_absent_or_unmatched c10q c10ans).2.1 (by decide) (by decide),
   (C10_none_when_absent_or_unmatched c10q c10ans).2.2 (fun s => s) [(3, c10ans)] 3 []
     ((C10_none_when_absent_or_unmatched c10q c10ans).2.1 (by decide) (by decide))⟩

end StackOverflowCollector
